import Mathlib

/-
  Verification development for the EZBuilt Deployment Execution & State
  Lifecycle Manager.

  The frontend deploy page (src/unnamed/part_010), the status type
  (src/unnamed/part_002) and the Firestore plan store
  (frontend/src/app/(app)/lib/saveTerraformPlan.ts) are embedded directly
  from the TypeScript source.  The backend Python services
  (src/services/deployments.py, terraform_exec.py, s3 service,
  routes_terraform.py) are not part of the source tree; where a claim
  depends on them, the definition is modelled from the spec and is marked
  as such in its doc comment.
-/

namespace EZBuilt

/-- Deployment status union type, from src/unnamed/part_002 lines 3-9:
started | running | success | failed | destroyed | destroy_failed. -/
inductive DeploymentStatus
  | started
  | running
  | success
  | failed
  | destroyed
  | destroy_failed
  deriving DecidableEq, Repr, Fintype

/-- A status is terminal when it is one of the four right-hand states of the
state machine (spec section 4.5). -/
def isTerminal : DeploymentStatus → Bool
  | DeploymentStatus.success => true
  | DeploymentStatus.failed => true
  | DeploymentStatus.destroyed => true
  | DeploymentStatus.destroy_failed => true
  | _ => false

/-! ## Deploy page polling loop (src/unnamed/part_010, lines 182-237) -/

/-- Shape of the JSON body returned by GET /api/deployment/id/status, from
the DeploymentStatusResponse type in src/unnamed/part_010 lines 17-23. -/
structure DeploymentStatusResponse where
  deployment_id : String
  status : String
  output : String
  deriving DecidableEq, Repr

/-- Outcome of the fetch inside poll: either a parsed response body, or the
thrown error message (response not ok, network failure, or JSON failure). -/
inductive FetchResult
  | ok (resp : DeploymentStatusResponse)
  | fetchFailed (msg : String)
  deriving DecidableEq, Repr

/-- The React state touched by one iteration of poll in
src/unnamed/part_010: the interval ref (some id while polling is
scheduled), and the deploymentStatus / deploymentOutput / deploymentError
state hooks. -/
structure PollState where
  pollInterval : Option Nat
  deploymentStatus : Option String
  deploymentOutput : String
  deploymentError : Option String
  deriving DecidableEq, Repr

/-- The clearInterval + null-out of pollIntervalRef.current performed in
both the terminal-status branch and the catch branch of poll. -/
def clearPollInterval (st : PollState) : PollState :=
  { st with pollInterval := none }

/-- The terminal-status test of poll, src/unnamed/part_010 lines 204-209:
data.status compared against the four terminal strings. -/
def isTerminalStatusString (s : String) : Bool :=
  s == "success" || s == "failed" || s == "destroyed" || s == "destroy_failed"

/-- One iteration of the async poll closure in src/unnamed/part_010 lines
185-224.  On a successful fetch it stores status and output and clears the
interval exactly when the status string is terminal; on a thrown error it
stores the error message and clears the interval. -/
def poll (st : PollState) (r : FetchResult) : PollState :=
  match r with
  | FetchResult.ok resp =>
      let st1 : PollState :=
        { st with
            deploymentStatus := some resp.status
            deploymentOutput := resp.output }
      if isTerminalStatusString resp.status then clearPollInterval st1 else st1
  | FetchResult.fetchFailed msg =>
      clearPollInterval { st with deploymentError := some msg }

/-- Condition under which the claim says polling stops: terminal status in
the response, or the status fetch itself threw. -/
def pollShouldStop : FetchResult → Bool
  | FetchResult.ok resp => isTerminalStatusString resp.status
  | FetchResult.fetchFailed _ => true

/-! ## Deploy / destroy gating on the deploy page
(src/unnamed/part_010, lines 282-290) -/

/-- Validation outcome saved on a plan, from TerraformValidation in
frontend/src/app/(app)/lib/saveTerraformPlan.ts. -/
structure TerraformValidation where
  valid : Bool
  errors : Option String
  deriving DecidableEq, Repr

/-- Terraform plan record, from the TerraformPlan type in
frontend/src/app/(app)/lib/saveTerraformPlan.ts (timestamp fields omitted;
no claim mentions them). -/
structure TerraformPlan where
  user_id : Option String
  terraformId : String
  requirements : String
  terraformCode : String
  validation : Option TerraformValidation
  status : Option String
  deriving DecidableEq, Repr

/-- JavaScript truthiness of a string-or-null value: null and the empty
string are falsy. -/
def truthyStr : Option String → Bool
  | none => false
  | some s => !(s == "")

/-- canDeploy from src/unnamed/part_010 lines 282-287: the Deploy button is
enabled only when a plan is loaded, a terraformId is present, no start is
in flight, no deploymentId exists yet, and validation is absent or valid. -/
def canDeploy (plan : Option TerraformPlan) (terraformId : Option String)
    (startingDeployment : Bool) (deploymentId : Option String) : Bool :=
  plan.isSome && truthyStr terraformId && !startingDeployment
    && !(truthyStr deploymentId)
    && (match plan with
        | some p =>
            (match p.validation with
             | some v => v.valid
             | none => true)
        | none => false)

/-- canDestroy from src/unnamed/part_010 lines 289-290: like canDeploy but
with no validation condition. -/
def canDestroy (plan : Option TerraformPlan) (terraformId : Option String)
    (startingDestroy : Bool) (deploymentId : Option String) : Bool :=
  plan.isSome && truthyStr terraformId && !startingDestroy
    && !(truthyStr deploymentId)

/-- A concrete plan whose stored validation result is valid=false, as after
a failed terraform validate. -/
def invalidatedPlan : TerraformPlan :=
  { user_id := some "demo-user-123"
    terraformId := "tf-1"
    requirements := "an s3 bucket"
    terraformCode := "resource aws_s3_bucket b"
    validation := some { valid := false, errors := some "syntax error" }
    status := some "generated" }

/-! ## Deployment state machine and status updates -/

/-- Kind of a Deployment execution, apply or destroy (spec section 3). -/
inductive Operation
  | apply
  | destroy
  deriving DecidableEq, Repr, Fintype

/-- Modelled from the spec: the legal transitions of the Deployment State
Machine (spec section 4.5), started to running, then running to
success/failed for apply and to destroyed/destroy_failed for destroy.  The
backend module that performs these transitions (src/services/deployments.py
and the background tasks of routes_terraform.py) is not in the source
tree. -/
def allowedTransition : Operation → DeploymentStatus → DeploymentStatus → Bool
  | _, DeploymentStatus.started, DeploymentStatus.running => true
  | Operation.apply, DeploymentStatus.running, DeploymentStatus.success => true
  | Operation.apply, DeploymentStatus.running, DeploymentStatus.failed => true
  | Operation.destroy, DeploymentStatus.running, DeploymentStatus.destroyed => true
  | Operation.destroy, DeploymentStatus.running, DeploymentStatus.destroy_failed => true
  | _, _, _ => false

/-- Modelled from the spec: the sequence of statuses the orchestration
writes for one Deployment (spec section 4.6): started at acceptance,
running once execution begins, then the terminal status determined by the
operation kind and the process outcome. -/
def statusTrace (op : Operation) (processOk : Bool) : List DeploymentStatus :=
  [DeploymentStatus.started,
   DeploymentStatus.running,
   match op, processOk with
   | Operation.apply, true => DeploymentStatus.success
   | Operation.apply, false => DeploymentStatus.failed
   | Operation.destroy, true => DeploymentStatus.destroyed
   | Operation.destroy, false => DeploymentStatus.destroy_failed]

/-- Persisted Deployment record fields relevant to status updates
(spec section 3; the deployments table holds status, captured output and a
nullable completed_at timestamp). -/
structure DeploymentRecord where
  status : DeploymentStatus
  output : String
  completed_at : Option Nat
  deriving DecidableEq, Repr

/-- Modelled from the spec: update_deployment_status in
src/services/deployments.py, which is not in the source tree (its gap
analysis, src/unnamed/part_012 item 8, records that it stamps completed_at
for all four terminal statuses).  Re-entrant calls on an already-terminal
record are rejected and leave the record unchanged; a transition into a
terminal status stamps completed_at with the current time. -/
def update_deployment_status (d : DeploymentRecord) (newStatus : DeploymentStatus)
    (out : String) (now : Nat) : DeploymentRecord :=
  if isTerminal d.status then d
  else
    { status := newStatus
      output := out
      completed_at := if isTerminal newStatus then some now else d.completed_at }

/-! ## Orchestration acceptance (mutual exclusion per Plan) -/

/-- Whether some Deployment of a Plan is still in flight (non-terminal). -/
def hasInFlight (ds : List DeploymentRecord) : Bool :=
  ds.any (fun d => !(isTerminal d.status))

/-- Number of in-flight (non-terminal) Deployments of a Plan. -/
def countInFlight (ds : List DeploymentRecord) : Nat :=
  (ds.filter (fun d => !(isTerminal d.status))).length

/-- The fresh Deployment row created in status started at acceptance time
(spec section 4.6 step 2). -/
def newDeploymentRecord : DeploymentRecord :=
  { status := DeploymentStatus.started, output := "", completed_at := none }

/-- Modelled from the spec: the acceptance check of RunApply and RunDestroy
(spec sections 3, 4.6 and 5): a request against a Plan that already has an
in-flight Deployment is rejected synchronously with a conflict, before any
background execution, and no second Deployment row is created; otherwise a
new row in status started is inserted.  The backend routes performing this
are not in the source tree. -/
def acceptRun (ds : List DeploymentRecord) : Except String (List DeploymentRecord) :=
  if hasInFlight ds then Except.error "deployment already in progress"
  else Except.ok (newDeploymentRecord :: ds)

/-! ## Object store gateway and sandbox lifecycle -/

/-- An object held by the store under a Plan's storage path: relative key,
byte size and content. -/
structure StoredObject where
  key : String
  size : Nat
  content : String
  deriving DecidableEq, Repr

/-- Reachability of the object store under a given storage path: either the
store is unreachable, or it is reachable and lists these objects. -/
inductive StoreState
  | unreachable
  | reachable (objects : List StoredObject)
  deriving DecidableEq, Repr

/-- A zero-byte directory-marker object (the empty placeholder object the
store lists for a folder), identified by its zero size as in the spec's
words for DownloadAll. -/
def isDirMarker (o : StoredObject) : Bool :=
  o.size == 0

/-- Modelled from the spec: download_prefix_to_tmp in the backend s3
service (not in the source tree; its tests are recorded in
src/backend/test/E2E_TEST_RESULTS.md, S3 Service Tests).  Per spec section
4.1, DownloadAll lists every object under the path, skips zero-byte
directory-marker objects, and returns an explicit empty file set rather
than an error when no real object is present; only an unreachable store is
an error. -/
def downloadAll : StoreState → Except String (List (String × String))
  | StoreState.unreachable => Except.error "store unreachable"
  | StoreState.reachable objects =>
      Except.ok
        ((objects.filter (fun o => !(isDirMarker o))).map
          (fun o => (o.key, o.content)))

/-- Removal of a sandbox directory from the set of existing directories on
the host (recursive delete of the directory and everything in it). -/
def removeDir (fs : List String) (dir : String) : List String :=
  fs.filter (fun d => !(d == dir))

/-- The possible outcomes of the execution body of a background task:
process success, Terraform nonzero exit, storage download failure, or an
unexpected exception anywhere in the sequence. -/
inductive ExecOutcome
  | processOk
  | terraformFailed
  | storageFailed
  | unexpectedError
  deriving DecidableEq, Repr, Fintype

/-- Modelled from the spec: the background task body of RunApply and
RunDestroy (spec sections 4.6, 5 and 7; the backend routes are not in the
source tree, and src/backend/test/E2E_TEST_RESULTS.md, Error Handling,
records that the tmp directory is always cleaned up, even on errors).  The
task acquires a sandbox directory named after the deployment, runs the
operation, translates every failure into a terminal status, and removes
the sandbox directory on every exit path before it completes. -/
def runBackgroundTask (op : Operation) (fs : List String) (sandboxDir : String)
    (outcome : ExecOutcome) : List String × DeploymentStatus :=
  let fsAcquired := sandboxDir :: fs
  let finalStatus :=
    match op, outcome with
    | Operation.apply, ExecOutcome.processOk => DeploymentStatus.success
    | Operation.apply, _ => DeploymentStatus.failed
    | Operation.destroy, ExecOutcome.processOk => DeploymentStatus.destroyed
    | Operation.destroy, _ => DeploymentStatus.destroy_failed
  (removeDir fsAcquired sandboxDir, finalStatus)

/-! ## Destroy without state, and best-effort state upload -/

/-- The implicit State Artifact key: the file named terraform.tfstate at
the Plan's storage path (spec section 3). -/
def tfstateName : String := "terraform.tfstate"

/-- Modelled from the spec: the destroy execution path
(HydrateStateBeforeDestroy, spec section 4.4, and the Destroy Flow section
of the repository README): all files at the Plan's storage path are
downloaded into the sandbox; if no terraform.tfstate is among them,
Terraform reports zero resources to destroy and exits zero, so the
Deployment ends destroyed; if state is present, the outcome and the number
of destroyed resources are those of the Terraform process. -/
def runDestroyFlow (objects : List StoredObject) (tfDestroyOk : Bool)
    (resourcesInState : Nat) : DeploymentStatus × Nat :=
  match downloadAll (StoreState.reachable objects) with
  | Except.error _ => (DeploymentStatus.destroy_failed, 0)
  | Except.ok files =>
      if files.any (fun f => f.1 == tfstateName) then
        if tfDestroyOk then (DeploymentStatus.destroyed, resourcesInState)
        else (DeploymentStatus.destroy_failed, 0)
      else (DeploymentStatus.destroyed, 0)

/-- Result of uploading the state file back to the store after a
successful apply. -/
inductive StateUploadResult
  | persisted
  | persistFailed (msg : String)
  deriving DecidableEq, Repr

/-- Modelled from the spec: the finalization of RunApply (spec sections
4.4 and 7, and the State File Upload section of the repository README):
the terminal status depends only on the Terraform process exit code; the
state upload after a successful apply is best-effort and its failure is
logged but never changes the status. -/
def finalizeApply (applyExitCode : Nat) (upload : StateUploadResult) :
    DeploymentStatus :=
  if applyExitCode == 0 then DeploymentStatus.success else DeploymentStatus.failed

/-! ## Firestore plan store
(frontend/src/app/(app)/lib/saveTerraformPlan.ts and handleSaveEditedCode,
src/unnamed/part_010 lines 302-359) -/

/-- A document in the terraformPlans collection, from the fields written by
saveTerraformPlan (timestamps omitted; no claim mentions them). -/
structure PlanDoc where
  user_id : Option String
  terraformId : String
  requirements : String
  terraformCode : String
  validation : Option TerraformValidation
  status : String
  deriving DecidableEq, Repr

/-- The Firestore collection, as an association list from document id to
document. -/
def PlanStore := List (String × PlanDoc)

/-- setDoc with merge on the document keyed by the given id: if the key
exists its document is replaced field-by-field (all written fields are
replaced here), otherwise a new document is created under the key. -/
def setDocMerge (store : PlanStore) (key : String) (d : PlanDoc) : PlanStore :=
  if store.any (fun kv => kv.1 == key)
  then store.map (fun kv => if kv.1 == key then (key, d) else kv)
  else (key, d) :: store

/-- saveTerraformPlan from
frontend/src/app/(app)/lib/saveTerraformPlan.ts: writes the plan document
at the document id terraformId, with status validated when the validation
result is valid and generated otherwise. -/
def saveTerraformPlan (store : PlanStore) (user_id : Option String)
    (terraformId requirements terraformCode : String)
    (validation : Option TerraformValidation) : PlanStore :=
  setDocMerge store terraformId
    { user_id := user_id
      terraformId := terraformId
      requirements := requirements
      terraformCode := terraformCode
      validation := validation
      status :=
        match validation with
        | some v => if v.valid then "validated" else "generated"
        | none => "generated" }

/-- Lookup of the document stored under an id. -/
def findDoc (store : PlanStore) (key : String) : Option PlanDoc :=
  (store.find? (fun kv => kv.1 == key)).map Prod.snd

/-- A concrete plan document before an edit, holding version-a source. -/
def planDocBeforeEdit : PlanDoc :=
  { user_id := some "demo-user-123"
    terraformId := "plan1"
    requirements := "an s3 bucket"
    terraformCode := "resource a"
    validation := some { valid := true, errors := none }
    status := "validated" }

/-- The store before the edit: one plan document under the id plan1. -/
def storeBeforeEdit : PlanStore := [("plan1", planDocBeforeEdit)]

/-- The store after handleSaveEditedCode (src/unnamed/part_010 lines
302-359) saves edited code for the same plan: the edit path calls
saveTerraformPlan with the same terraformId and the edited code. -/
def storeAfterEdit : PlanStore :=
  saveTerraformPlan storeBeforeEdit (some "demo-user-123") "plan1"
    "an s3 bucket" "resource b" none

/-- The document saveTerraformPlan writes for the given arguments. -/
def savedPlanDoc (user_id : Option String)
    (terraformId requirements terraformCode : String)
    (validation : Option TerraformValidation) : PlanDoc :=
  { user_id := user_id
    terraformId := terraformId
    requirements := requirements
    terraformCode := terraformCode
    validation := validation
    status :=
      match validation with
      | some v => if v.valid then "validated" else "generated"
      | none => "generated" }

/-! ## Helper lemmas (shared, not tied to a single claim) -/

theorem removeDir_contains_self (fs : List String) (dir : String) :
    (removeDir fs dir).contains dir = false := by
  have hmem : dir ∉ removeDir fs dir := by
    intro hmem
    have h2 := (List.mem_filter.mp hmem).2
    simp at h2
  cases hc : (removeDir fs dir).contains dir
  · rfl
  · exact absurd (List.elem_iff.mp hc) hmem

theorem saveTerraformPlan_eq_setDocMerge (store : PlanStore)
    (uid : Option String) (tid req code : String)
    (val : Option TerraformValidation) :
    saveTerraformPlan store uid tid req code val
      = setDocMerge store tid (savedPlanDoc uid tid req code val) := rfl

theorem setDocMerge_keys (store : PlanStore) (key : String) (d : PlanDoc)
    (h : store.any (fun kv => kv.1 == key) = true) :
    (setDocMerge store key d).map Prod.fst = store.map Prod.fst := by
  unfold setDocMerge
  rw [if_pos h, List.map_map]
  apply List.map_congr_left
  intro kv hkv
  simp only [Function.comp_apply]
  by_cases hk : (kv.1 == key) = true
  · rw [if_pos hk]
    exact (beq_iff_eq.mp hk).symm
  · rw [if_neg hk]

theorem setDocMerge_find (store : PlanStore) (key : String) (d : PlanDoc) :
    store.any (fun kv => kv.1 == key) = true →
    findDoc (setDocMerge store key d) key = some d := by
  induction store with
  | nil => intro h; simp at h
  | cons kv rest ih =>
      intro h
      by_cases hk : (kv.1 == key) = true
      · unfold setDocMerge
        rw [if_pos h, List.map_cons, if_pos hk]
        simp [findDoc, List.find?_cons]
      · have hrest : rest.any (fun kv2 => kv2.1 == key) = true := by
          rcases List.any_eq_true.mp h with ⟨x, hx, hxk⟩
          rcases List.mem_cons.mp hx with hx1 | hx2
          · subst hx1
            exact absurd hxk hk
          · exact List.any_eq_true.mpr ⟨x, hx2, hxk⟩
        have ihr := ih hrest
        unfold setDocMerge at ihr ⊢
        rw [if_pos h, List.map_cons, if_neg hk]
        rw [if_pos hrest] at ihr
        simpa [findDoc, List.find?_cons, hk] using ihr

/-! # Theorems -/

/-- C10: in the deploy page's status-polling loop, the polling interval is
cleared if and only if the returned status is one of success, failed,
destroyed or destroy_failed, or the status fetch itself threw an error;
for every other status the interval is left untouched and polling
continues. -/
theorem poll_clears_interval_iff_terminal_or_error
    (st : PollState) (r : FetchResult) (k : Nat)
    (h : st.pollInterval = some k) :
    ((poll st r).pollInterval = none ↔ pollShouldStop r = true)
    ∧ (pollShouldStop r = false → (poll st r).pollInterval = some k) := by
  constructor
  · constructor
    · intro hnone
      cases r with
      | ok resp =>
          by_cases hts : isTerminalStatusString resp.status = true
          · simp [pollShouldStop, hts]
          · simp only [poll, Bool.not_eq_true] at hnone
            rw [if_neg (by simp [hts])] at hnone
            simp only [h] at hnone
            cases hnone
      | fetchFailed msg => simp [pollShouldStop]
    · intro hstop
      cases r with
      | ok resp =>
          simp only [pollShouldStop] at hstop
          simp [poll, hstop, clearPollInterval]
      | fetchFailed msg => simp [poll, clearPollInterval]
  · intro hstop
    cases r with
    | ok resp =>
        simp only [pollShouldStop] at hstop
        simp [poll, hstop, h]
    | fetchFailed msg => simp [pollShouldStop] at hstop

/-- Witness for C10: with an interval scheduled and a response whose status
is running, the interval is not cleared. -/
theorem poll_clears_interval_iff_terminal_or_error_witness :
    (poll { pollInterval := some 4000, deploymentStatus := none,
            deploymentOutput := "", deploymentError := none }
        (FetchResult.ok { deployment_id := "d1", status := "running",
                          output := "init ok" })).pollInterval = some 4000 :=
  (poll_clears_interval_iff_terminal_or_error
      { pollInterval := some 4000, deploymentStatus := none,
        deploymentOutput := "", deploymentError := none }
      (FetchResult.ok { deployment_id := "d1", status := "running",
                        output := "init ok" })
      4000 rfl).2 (by decide)

/-- C6: evaluation of the deploy page's gating at a plan whose validation
result is valid=false.  The page's own warning text (src/unnamed/part_010
lines 553-558) says the user can still attempt to deploy or destroy, and
the spec calls this a deliberate permissiveness, but canDeploy is false for
such a plan, so the Deploy button is disabled and an apply can no longer be
attempted; only destroy remains enabled. -/
theorem canDeploy_blocked_on_invalid_validation :
    canDeploy (some invalidatedPlan) (some "tf-1") false none = false
    ∧ canDestroy (some invalidatedPlan) (some "tf-1") false none = true := by
  decide

/-- C7: every status sequence a Deployment passes through follows
started, running, then success/failed for an apply and destroyed/
destroy_failed for a destroy: the first status is always started, each
consecutive pair is a legal transition of the state machine, every
non-final status is non-terminal, the final status is terminal, the
terminal statuses are exactly the four right-hand states, and the status
type has exactly the six declared values. -/
theorem deployment_status_state_machine :
    (∀ (op : Operation) (processOk : Bool),
        (statusTrace op processOk).head? = some DeploymentStatus.started
        ∧ List.Chain' (fun a b => allowedTransition op a b = true)
            (statusTrace op processOk)
        ∧ (statusTrace op processOk).dropLast.all
            (fun s => !(isTerminal s)) = true
        ∧ Option.any isTerminal (statusTrace op processOk).getLast? = true)
    ∧ (∀ s : DeploymentStatus, isTerminal s = true ↔
        (s = DeploymentStatus.success ∨ s = DeploymentStatus.failed
          ∨ s = DeploymentStatus.destroyed
          ∨ s = DeploymentStatus.destroy_failed))
    ∧ (∀ s : DeploymentStatus,
        s = DeploymentStatus.started ∨ s = DeploymentStatus.running
          ∨ s = DeploymentStatus.success ∨ s = DeploymentStatus.failed
          ∨ s = DeploymentStatus.destroyed
          ∨ s = DeploymentStatus.destroy_failed) := by
  refine ⟨?_, ?_, ?_⟩
  · intro op processOk
    cases op <;> cases processOk <;>
      exact ⟨rfl,
        by simp [statusTrace, List.chain'_cons, List.chain'_singleton,
                 allowedTransition],
        rfl, rfl⟩
  · intro s
    cases s <;> decide
  · intro s
    cases s <;> decide

/-- C1: once a Deployment record is terminal, a status-update call leaves
it unchanged, so no sequence of subsequent calls can change its status or
clear completed_at; and a transition from a non-terminal status into a
terminal one sets the new status and stamps completed_at with the current
time. -/
theorem terminal_status_is_final (d : DeploymentRecord)
    (newStatus : DeploymentStatus) (out : String) (now : Nat) :
    (isTerminal d.status = true →
        update_deployment_status d newStatus out now = d
        ∧ ∀ l : List (DeploymentStatus × String × Nat),
            l.foldl (fun a u => update_deployment_status a u.1 u.2.1 u.2.2) d = d)
    ∧ (isTerminal d.status = false → isTerminal newStatus = true →
        (update_deployment_status d newStatus out now).status = newStatus
        ∧ (update_deployment_status d newStatus out now).completed_at = some now) := by
  constructor
  · intro hterm
    have hid : ∀ (ns : DeploymentStatus) (o : String) (t : Nat),
        update_deployment_status d ns o t = d := by
      intro ns o t
      simp [update_deployment_status, hterm]
    refine ⟨hid newStatus out now, ?_⟩
    intro l
    induction l with
    | nil => rfl
    | cons u rest ih =>
        simpa [List.foldl_cons, hid u.1 u.2.1 u.2.2] using ih
  · intro hnot hnew
    simp [update_deployment_status, hnot, hnew]

/-- Witness for C1: updating an already successful record to failed leaves
it unchanged. -/
theorem terminal_status_is_final_witness :
    update_deployment_status
        { status := DeploymentStatus.success, output := "apply ok",
          completed_at := some 10 }
        DeploymentStatus.failed "late write" 99
      = { status := DeploymentStatus.success, output := "apply ok",
          completed_at := some 10 } :=
  ((terminal_status_is_final
      { status := DeploymentStatus.success, output := "apply ok",
        completed_at := some 10 }
      DeploymentStatus.failed "late write" 99).1 (by decide)).1

/-- C2: a RunApply or RunDestroy request against a Plan with an in-flight
(non-terminal) Deployment is rejected at acceptance time with a conflict
and no second Deployment record is created; an accepted request implies
there was no in-flight Deployment and leaves exactly one; and on the
deploy page both buttons are disabled while a deploymentId is set, so no
second request is issued from the page either. -/
theorem run_acceptance_mutual_exclusion (ds : List DeploymentRecord)
    (plan : Option TerraformPlan) (tid : Option String) (busy : Bool)
    (depId : String) :
    (hasInFlight ds = true →
        acceptRun ds = Except.error "deployment already in progress")
    ∧ (∀ ds', acceptRun ds = Except.ok ds' →
        countInFlight ds = 0 ∧ countInFlight ds' = 1
        ∧ ds' = newDeploymentRecord :: ds)
    ∧ (depId ≠ "" →
        canDeploy plan tid busy (some depId) = false
        ∧ canDestroy plan tid busy (some depId) = false) := by
  refine ⟨?_, ?_, ?_⟩
  · intro h
    simp [acceptRun, h]
  · intro ds' h
    by_cases hif : hasInFlight ds = true
    · simp [acceptRun, hif] at h
    · have hif' : hasInFlight ds = false := by
        simpa using hif
      have hds' : ds' = newDeploymentRecord :: ds := by
        simp [acceptRun, hif'] at h
        exact h.symm
      have hterm : ∀ d ∈ ds, isTerminal d.status = true := by
        simpa [hasInFlight] using hif'
      have hall : ∀ d ∈ ds, ¬((!(isTerminal d.status)) = true) := by
        intro d hd
        simp [hterm d hd]
      have hfil : List.filter (fun d => !(isTerminal d.status)) ds = [] :=
        List.filter_eq_nil_iff.mpr hall
      have hzero : countInFlight ds = 0 := by
        simp [countInFlight, hfil]
      refine ⟨hzero, ?_, hds'⟩
      rw [hds']
      simp only [countInFlight]
      rw [List.filter_cons,
        if_pos (show (!(isTerminal newDeploymentRecord.status)) = true from rfl),
        hfil]
      rfl
  · intro h
    have hb : (depId == "") = false := by
      simpa [beq_iff_eq] using h
    constructor
    · simp [canDeploy, truthyStr, hb]
    · simp [canDestroy, truthyStr, hb]

/-- Witness for C2: with one Deployment in status started, a second request
is rejected, and the Deploy button is disabled while a deploymentId is
present. -/
theorem run_acceptance_mutual_exclusion_witness :
    acceptRun [newDeploymentRecord] = Except.error "deployment already in progress"
    ∧ canDeploy (some invalidatedPlan) (some "tf-1") false (some "dep-1") = false :=
  ⟨(run_acceptance_mutual_exclusion [newDeploymentRecord]
      (some invalidatedPlan) (some "tf-1") false "dep-1").1 (by decide),
   ((run_acceptance_mutual_exclusion [newDeploymentRecord]
      (some invalidatedPlan) (some "tf-1") false "dep-1").2.2 (by decide)).1⟩

/-- C3: for every operation kind, prior filesystem contents, sandbox
directory and execution outcome (process success, Terraform failure,
storage failure or an unexpected exception), the sandbox directory created
for the Deployment is gone when the background task completes, and the
task ends in a terminal status. -/
theorem sandbox_removed_on_every_path (op : Operation) (fs : List String)
    (sandboxDir : String) (outcome : ExecOutcome) :
    (runBackgroundTask op fs sandboxDir outcome).1.contains sandboxDir = false
    ∧ isTerminal (runBackgroundTask op fs sandboxDir outcome).2 = true := by
  constructor
  · exact removeDir_contains_self (sandboxDir :: fs) sandboxDir
  · cases op <;> cases outcome <;> rfl

/-- C4: a RunDestroy on a Plan whose storage path holds no
terraform.tfstate object reaches the terminal status destroyed with zero
resources destroyed, not destroy_failed and not an error, regardless of
how the Terraform process would have fared with state present. -/
theorem destroy_without_state_is_noop (objects : List StoredObject)
    (tfDestroyOk : Bool) (resourcesInState : Nat)
    (h : ∀ o ∈ objects, ¬(o.key = tfstateName)) :
    runDestroyFlow objects tfDestroyOk resourcesInState
      = (DeploymentStatus.destroyed, 0) := by
  have hany : ((objects.filter (fun o => !(isDirMarker o))).map
      (fun o => (o.key, o.content))).any (fun f => f.1 == tfstateName) = false := by
    rw [List.any_eq_false]
    intro f hf
    rcases List.mem_map.mp hf with ⟨o, ho, rfl⟩
    have hne := h o (List.mem_of_mem_filter ho)
    simp [beq_iff_eq]
    exact hne
  simp only [runDestroyFlow, downloadAll]
  rw [hany]
  simp

/-- Witness for C4: destroying a plan whose store holds only main.tf ends
destroyed with zero resources, even though the Terraform-with-state path
would have failed. -/
theorem destroy_without_state_is_noop_witness :
    runDestroyFlow [{ key := "main.tf", size := 10, content := "resource a" }]
        false 7
      = (DeploymentStatus.destroyed, 0) :=
  destroy_without_state_is_noop
    [{ key := "main.tf", size := 10, content := "resource a" }] false 7
    (by decide)

/-- C5: the terminal status after an apply whose Terraform process exits
zero is success for every outcome of the state upload, so a failed
best-effort state upload never turns the Deployment into failed; more
generally the status never depends on the upload outcome. -/
theorem apply_success_despite_upload_failure :
    (∀ (code : Nat) (u u' : StateUploadResult),
        finalizeApply code u = finalizeApply code u')
    ∧ (∀ (u : StateUploadResult),
        finalizeApply 0 u = DeploymentStatus.success) :=
  ⟨fun _ _ _ => rfl, fun _ => rfl⟩

/-- C8: DownloadAll on a reachable store never errors and only returns
content of non-marker objects, on a store holding only zero-byte
directory-marker objects it returns the explicit empty file set, and only
an unreachable store yields a storage error, so callers can tell nothing
there from store unreachable. -/
theorem downloadAll_empty_is_ok (objects : List StoredObject) :
    (∃ files, downloadAll (StoreState.reachable objects) = Except.ok files
        ∧ ∀ f ∈ files, ∃ o, o ∈ objects ∧ isDirMarker o = false
            ∧ f = (o.key, o.content))
    ∧ ((∀ o ∈ objects, isDirMarker o = true) →
        downloadAll (StoreState.reachable objects) = Except.ok [])
    ∧ downloadAll StoreState.unreachable = Except.error "store unreachable" := by
  refine ⟨⟨_, rfl, ?_⟩, ?_, rfl⟩
  · intro f hf
    rcases List.mem_map.mp hf with ⟨o, ho, rfl⟩
    have hmem := List.mem_filter.mp ho
    refine ⟨o, hmem.1, ?_, rfl⟩
    simpa using hmem.2
  · intro hmarkers
    have hfil : objects.filter (fun o => !(isDirMarker o)) = [] := by
      apply List.filter_eq_nil_iff.mpr
      intro o ho
      simp [hmarkers o ho]
    simp [downloadAll, hfil]

/-- Witness for C8: a store holding only a zero-byte folder marker yields
the empty file set, not an error. -/
theorem downloadAll_empty_is_ok_witness :
    downloadAll (StoreState.reachable [{ key := "plans/", size := 0, content := "" }])
      = Except.ok [] :=
  (downloadAll_empty_is_ok [{ key := "plans/", size := 0, content := "" }]).2.1
    (by decide)

/-- C9 counterexample: saving edited Terraform through the deploy page's
edit path (handleSaveEditedCode calling saveTerraformPlan) writes the new
code to the same document id plan1 that already held the old code: the set
of stored keys is unchanged, no new version sub-path is created, and the
document at the same key now carries the edited source in place of the
old one.  This contradicts the claim that every edit writes a new version
under a new sub-path rather than overwriting in place. -/
theorem edit_overwrites_plan_in_place :
    findDoc storeBeforeEdit "plan1" = some planDocBeforeEdit
    ∧ storeAfterEdit.map Prod.fst = ["plan1"]
    ∧ (findDoc storeAfterEdit "plan1").map (fun d => d.terraformCode)
        = some "resource b" := by
  decide

/-- C9 as amended: a Plan's storage location is fixed at creation, and an
edit of the Plan's Terraform source overwrites the stored source in place
under that same unchanged key: saving over an existing plan id leaves the
set of stored document keys unchanged (so the Plan's storage path never
changes) and replaces the document under the same id with one carrying the
edited code. -/
theorem edit_replaces_doc_under_same_key (store : PlanStore)
    (uid : Option String) (tid req code : String)
    (val : Option TerraformValidation)
    (h : store.any (fun kv => kv.1 == tid) = true) :
    (saveTerraformPlan store uid tid req code val).map Prod.fst
        = store.map Prod.fst
    ∧ findDoc (saveTerraformPlan store uid tid req code val) tid
        = some (savedPlanDoc uid tid req code val) := by
  rw [saveTerraformPlan_eq_setDocMerge]
  exact ⟨setDocMerge_keys store tid (savedPlanDoc uid tid req code val) h,
    setDocMerge_find store tid (savedPlanDoc uid tid req code val) h⟩

/-- Witness for the amended C9: saving edited code over the existing plan1
leaves the key set at exactly plan1. -/
theorem edit_replaces_doc_under_same_key_witness :
    (saveTerraformPlan storeBeforeEdit (some "demo-user-123") "plan1"
        "an s3 bucket" "resource b" none).map Prod.fst = ["plan1"] := by
  have h := (edit_replaces_doc_under_same_key storeBeforeEdit
      (some "demo-user-123") "plan1" "an s3 bucket" "resource b" none
      (by decide)).1
  simpa using h

end EZBuilt
